import Mathlib

/-!
Operation contracts of the Couchbase C++ client: request encoding and response decoding

A shallow embedding of the request/response codecs found in

* `core/operations/management/search_index_analyze_document.cxx`
* `core/operations/management/eventing_undeploy_function.cxx`
* `couchbase/operations/document_remove.hxx`
* `core/operations/mcbp_noop.cxx`
* `core/topology/error_map_fmt.hxx`
* `core/impl/unlock.cxx`
* `couchbase/transactions/transactions_config.hxx`
* `tools/pillowfight.cxx` (the error report of `do_work`)

`std::string` is `String`, `std::optional` is `Option`, fixed-width unsigned integers are `Nat`
(the codecs copy them and never compute with them), and `std::error_code` is the small sum type
`error_code`.  A C++ function that may let an exception escape returns
`Except cxx_exception _`.  Functions that the operations call but that are defined in other
translation units (`utils::json::parse`, `utils::json::generate`, `extract_common_error_code`,
`extract_eventing_error_code`) are arguments of the embedded functions, so every general
theorem holds for all of them.  The last section of definitions supplies one concrete choice of
these arguments, used only to run the decoders on concrete bodies.
-/

namespace Couchbase

/-! ## Error codes -/

/-- The members of `errc::common` that occur below: the four the operations name
(`invalid_argument`, `parsing_failure`, `index_not_found`, `index_exists`) and three for the
generic table of the concrete runs. -/
inductive errc_common where
  | invalid_argument
  | internal_server_failure
  | parsing_failure
  | index_not_found
  | index_exists
  | rate_limited
  | quota_limited
  deriving DecidableEq, Repr

/-- A `std::error_code`: default-constructed (no error), a member of `errc::common`, or a code
of some other category identified by its category name and its integer value. -/
inductive error_code where
  | success
  | common (e : errc_common)
  | other (category : String) (value : Nat)
  deriving DecidableEq, Repr

/-- The `explicit operator bool` of `std::error_code`: true when the value is non-zero.  The
members of `errc::common` all have non-zero values. -/
def error_code.failed : error_code → Bool
  | .success => false
  | .common _ => true
  | .other _ v => v != 0

/-! ## Strings -/

/-- `std::string::empty`. -/
def str_empty (s : String) : Bool :=
  s.data.isEmpty

/-- Position of the first occurrence of `needle` in `hay` at or after offset `pos`, on character
lists; `none` stands for `std::string::npos`. -/
def find_from (needle : List Char) : List Char → Nat → Option Nat
  | [], pos => if needle.isEmpty then some pos else none
  | c :: rest, pos =>
    if needle.isPrefixOf (c :: rest) then some pos else find_from needle rest (pos + 1)

/-- `std::string::find(needle)`: position of the first occurrence, `none` for `npos`. -/
def str_find (hay needle : String) : Option Nat :=
  find_from needle.data hay.data 0

/-- The source's test `s.find(needle) != std::string::npos`. -/
def str_contains (hay needle : String) : Bool :=
  (str_find hay needle).isSome

/-- Expansion of a `fmt::format` format string whose only replacement fields are `{}`: each
`{}` is replaced by the next argument, other characters are copied. -/
def fmt_expand : List Char → List String → List Char
  | '{' :: '}' :: rest, a :: args => a.data ++ fmt_expand rest args
  | c :: rest, args => c :: fmt_expand rest args
  | [], _ => []

/-- `fmt::format(fmt, args...)` for string arguments. -/
def fmt_format (fmt : String) (args : List String) : String :=
  ⟨fmt_expand fmt.data args⟩

/-! ## `std::map<std::string, std::string>` -/

/-- `m[k] = v` on a map kept as an association list with unique keys. -/
def map_assign : List (String × String) → String → String → List (String × String)
  | [], k, v => [(k, v)]
  | (k', v') :: rest, k, v =>
    if k' = k then (k, v) :: rest else (k', v') :: map_assign rest k v

/-- Lookup of a key, `none` when the key is not in the map. -/
def map_find : List (String × String) → String → Option String
  | [], _ => none
  | (k', v') :: rest, k => if k' = k then some v' else map_find rest k

/-! ## HTTP messages -/

/-- The fields of `io::http_request` written by the encoders. -/
structure http_request where
  method : String := ""
  path : String := ""
  headers : List (String × String) := []
  body : String := ""
  deriving DecidableEq, Repr

/-- The fields of `io::http_response` read by the decoders; `body` is `encoded.body.data()`. -/
structure http_response where
  status_code : Nat
  body : String
  deriving DecidableEq, Repr

/-- An `error_context::http`: the error code, which is the only field the decoders write, and
the diagnostic fields, which they carry along, gathered in `info`. -/
structure http_error_context where
  ec : error_code := .success
  info : String := ""
  deriving DecidableEq, Repr

/-! ## search_index_analyze_document -/

/-- The request of the analyze-document operation. -/
structure search_index_analyze_document_request where
  index_name : String
  encoded_document : String
  deriving DecidableEq, Repr

/-- `search_index_analyze_document_request::encode_to`: returns the error code and the message
after the call. -/
def search_index_analyze_document_request.encode_to
    (self : search_index_analyze_document_request) (encoded : http_request) :
    error_code × http_request :=
  if str_empty self.index_name then
    (.common .invalid_argument, encoded)
  else
    let encoded := { encoded with method := "POST" }
    let encoded := { encoded with headers := map_assign encoded.headers "cache-control" "no-cache" }
    let encoded :=
      { encoded with headers := map_assign encoded.headers "content-type" "application/json" }
    let encoded := { encoded with path := fmt_format "/api/index/{}/analyzeDoc" [self.index_name] }
    let encoded := { encoded with body := self.encoded_document }
    (.success, encoded)

/-! ## JSON values and C++ exceptions -/

/-- The C++ exceptions that can arise in the embedded code: `tao::pegtl::parse_error` from the
JSON reader, `std::out_of_range` from a lookup of a missing object member, and
`std::bad_variant_access` from reading a value as a type it does not hold. -/
inductive cxx_exception where
  | parse_error
  | out_of_range
  | bad_variant_access
  deriving DecidableEq, Repr

/-- A `tao::json::value`, as far as the decoders look at it. -/
inductive json_value where
  | null
  | boolean (b : Bool)
  | number (n : Int)
  | string (s : String)
  | array (elements : List json_value)
  | object (members : List (String × json_value))
  deriving Repr

/-- Lookup of a key in the members of an object. -/
def members_find : List (String × json_value) → String → Option json_value
  | [], _ => none
  | (k, v) :: rest, key => if k = key then some v else members_find rest key

/-- `value.at(key)`: the member of an object; throws `std::out_of_range` when the key is
missing and `std::bad_variant_access` when the value is not an object. -/
def json_value.at : json_value → String → Except cxx_exception json_value
  | .object members, key =>
    match members_find members key with
    | some v => .ok v
    | none => .error .out_of_range
  | _, _ => .error .bad_variant_access

/-- `value.get_string()`: the string held; throws `std::bad_variant_access` otherwise. -/
def json_value.get_string : json_value → Except cxx_exception String
  | .string s => .ok s
  | _ => .error .bad_variant_access

/-- The functions of `core/utils/json.hxx` used by the decoders.  `parse` either yields a value
or throws; a malformed text throws `tao::pegtl::parse_error`. -/
structure json_utils where
  parse : String → Except cxx_exception json_value
  generate : json_value → String

/-! ## search_index_analyze_document: decoding -/

/-- The response of the analyze-document operation. -/
structure search_index_analyze_document_response where
  ctx : http_error_context
  status : String := ""
  error : String := ""
  analysis : String := ""
  deriving DecidableEq, Repr

/-- `search_index_analyze_document_request::make_response`.  `extract_common_error_code` is the
generic table of `error_utils.hxx`.  The result is `.error e` when the C++ function lets the
exception `e` escape. -/
def search_index_analyze_document_request.make_response
    (json : json_utils) (extract_common_error_code : Nat → String → error_code)
    (_self : search_index_analyze_document_request)
    (ctx : http_error_context) (encoded : http_response) :
    Except cxx_exception search_index_analyze_document_response :=
  let response : search_index_analyze_document_response := { ctx := ctx }
  let generic (response : search_index_analyze_document_response) :
      Except cxx_exception search_index_analyze_document_response :=
    .ok { response with
      ctx := { response.ctx with
        ec := extract_common_error_code encoded.status_code encoded.body } }
  if !response.ctx.ec.failed then
    if encoded.status_code = 200 then
      match json.parse encoded.body with
      | .error .parse_error =>
        .ok { response with ctx := { response.ctx with ec := .common .parsing_failure } }
      | .error e => .error e
      | .ok payload => do
        let status ← (← payload.at "status").get_string
        let response := { response with status := status }
        if response.status = "ok" then
          let analyzed ← payload.at "analyzed"
          .ok { response with analysis := json.generate analyzed }
        else
          generic response
    else if encoded.status_code = 400 then
      if str_contains encoded.body "no indexName:" then
        .ok { response with ctx := { response.ctx with ec := .common .index_not_found } }
      else
        match json.parse encoded.body with
        | .error .parse_error =>
          .ok { response with ctx := { response.ctx with ec := .common .parsing_failure } }
        | .error e => .error e
        | .ok payload => do
          let status ← (← payload.at "status").get_string
          let response := { response with status := status }
          let error ← (← payload.at "error").get_string
          let response := { response with error := error }
          if str_contains response.error "index not found" then
            .ok { response with ctx := { response.ctx with ec := .common .index_not_found } }
          else if str_contains response.error "index with the same name already exists" then
            .ok { response with ctx := { response.ctx with ec := .common .index_exists } }
          else
            generic response
    else
      generic response
  else
    .ok response

/-! ## eventing_undeploy_function -/

/-- The request of the undeploy operation: the name of the eventing function. -/
structure eventing_undeploy_function_request where
  name : String
  deriving DecidableEq, Repr

/-- The response of the undeploy operation; `problem` is the type `eventing_problem` of the
error utilities. -/
structure eventing_undeploy_function_response (problem : Type) where
  ctx : http_error_context
  error : Option problem := none

/-- `eventing_undeploy_function_request::encode_to`. -/
def eventing_undeploy_function_request.encode_to
    (self : eventing_undeploy_function_request) (encoded : http_request) :
    error_code × http_request :=
  let encoded := { encoded with method := "POST" }
  let encoded := { encoded with path := fmt_format "/api/v1/functions/{}/undeploy" [self.name] }
  (.success, encoded)

/-- `eventing_undeploy_function_request::make_response`.  `extract_eventing_error_code` is the
eventing table of `error_utils.hxx`, which returns a pair of an error code and a problem. -/
def eventing_undeploy_function_request.make_response {problem : Type}
    (json : json_utils)
    (extract_eventing_error_code : json_value → Except cxx_exception (error_code × problem))
    (_self : eventing_undeploy_function_request)
    (ctx : http_error_context) (encoded : http_response) :
    Except cxx_exception (eventing_undeploy_function_response problem) :=
  let response : eventing_undeploy_function_response problem := { ctx := ctx }
  if !response.ctx.ec.failed then
    if str_empty encoded.body then
      .ok response
    else
      match json.parse encoded.body with
      | .error .parse_error =>
        .ok { response with ctx := { response.ctx with ec := .common .parsing_failure } }
      | .error e => .error e
      | .ok payload => do
        let (ec, problem) ← extract_eventing_error_code payload
        if ec.failed then
          .ok { response with ctx := { response.ctx with ec := ec }, error := some problem }
        else
          .ok response
  else
    .ok response

/-! ## remove (key-value) -/

/-- Modelled from the spec: `document_id.hxx` is not among the sources; a document id is the
fully qualified address bucket, scope, collection, key. -/
structure document_id where
  bucket : String := ""
  scope : String := ""
  collection : String := ""
  key : String := ""
  deriving DecidableEq, Repr

/-- Modelled from the spec: the declaration of `protocol::durability_level` is not among the
sources; the levels are none, majority, majority_and_persist_to_active and
persist_to_majority. -/
inductive durability_level where
  | none
  | majority
  | majority_and_persist_to_active
  | persist_to_majority
  deriving DecidableEq, Repr

/-- Modelled from the spec: the declaration of `mutation_token` is not among the sources; a
token holds the partition uuid, the sequence number, the partition id and the bucket name, all
zero or empty when default-constructed. -/
structure mutation_token where
  partition_uuid : Nat := 0
  sequence_number : Nat := 0
  partition_id : Nat := 0
  bucket_name : String := ""
  deriving DecidableEq, Repr

/-- The part of `error_context::key_value` the decoder touches: the error code and the
document id. -/
structure key_value_error_context where
  ec : error_code := .success
  id : document_id := {}
  deriving DecidableEq, Repr

/-- A call of a setter of `protocol::client_request<remove_request_body>`, in the order the
encoder makes them: `encoded.opaque(v)`, `encoded.partition(v)`, `encoded.cas(v)`,
`encoded.body().id(id)` and `encoded.body().durability(level, timeout)`. -/
inductive frame_call where
  | opaque_id (v : Nat)
  | partition (v : Nat)
  | cas (v : Nat)
  | body_id (id : document_id)
  | body_durability (level : durability_level) (timeout : Option Nat)
  deriving DecidableEq, Repr

/-- The getters of `protocol::client_response<remove_response_body>` read by the decoder:
`encoded.cas()` and `encoded.body().token()`. -/
structure remove_response_frame where
  cas : Nat
  token : mutation_token
  deriving DecidableEq, Repr

/-- The fields of `remove_request` that take part in encoding and decoding, with the defaults of
the source.  The field `opaque` of the source is `opaque_id` here. -/
structure remove_request where
  id : document_id
  partition : Nat := 0
  opaque_id : Nat := 0
  cas : Nat := 0
  durability_level : durability_level := .none
  durability_timeout : Option Nat := none
  deriving DecidableEq, Repr

/-- The `remove_response`. -/
structure remove_response where
  ctx : key_value_error_context
  cas : Nat := 0
  token : mutation_token := {}
  deriving DecidableEq, Repr

/-- `remove_request::encode_to`: the frame is the sequence of setter calls made on it so far;
the calls of the encoder are appended. -/
def remove_request.encode_to (self : remove_request) (encoded : List frame_call) :
    error_code × List frame_call :=
  let encoded := encoded ++ [.opaque_id self.opaque_id]
  let encoded := encoded ++ [.partition self.partition]
  let encoded := encoded ++ [.cas self.cas]
  let encoded := encoded ++ [.body_id self.id]
  let encoded :=
    if self.durability_level ≠ .none then
      encoded ++ [.body_durability self.durability_level self.durability_timeout]
    else
      encoded
  (.success, encoded)

/-- `make_response` of `document_remove.hxx`. -/
def remove_request.make_response (ctx : key_value_error_context) (request : remove_request)
    (encoded : remove_response_frame) : remove_response :=
  let response : remove_response := { ctx := ctx }
  if !response.ctx.ec.failed then
    let response := { response with cas := encoded.cas }
    let response := { response with token := encoded.token }
    let response := { response with token := { response.token with partition_id := request.partition } }
    let response := { response with token := { response.token with bucket_name := response.ctx.id.bucket } }
    response
  else
    response

/-! ## Concrete arguments for running the decoders

`core/utils/json.hxx` and `error_utils.hxx` are not among the sources.  The definitions of this
section are one concrete choice for the functions they declare.  The reader works on the JSON
grammar restricted to integer numbers and to the two-character escapes; any other text is
rejected with `parse_error`.  Objects keep one value per key, the last one written. -/

/-- JSON white space. -/
def json_ws (c : Char) : Bool :=
  c = ' ' || c = '\n' || c = '\t' || c = '\r'

/-- Drops leading white space. -/
def skip_ws : List Char → List Char
  | [] => []
  | c :: rest => if json_ws c then skip_ws rest else c :: rest

/-- The character denoted by the escape `\c`. -/
def json_unescape (c : Char) : Option Char :=
  if c = '"' then some '"'
  else if c = '\\' then some '\\'
  else if c = '/' then some '/'
  else if c = 'n' then some '\n'
  else if c = 't' then some '\t'
  else if c = 'r' then some '\r'
  else none

/-- Reads a string after its opening quote; `acc` holds the characters read so far, reversed. -/
def read_string : List Char → List Char → Option (String × List Char)
  | [], _ => none
  | c :: rest, acc =>
    if c = '"' then some (⟨acc.reverse⟩, rest)
    else if c = '\\' then
      match rest with
      | [] => none
      | e :: rest' =>
        match json_unescape e with
        | some d => read_string rest' (d :: acc)
        | none => none
    else if c.toNat < 32 then none
    else read_string rest (c :: acc)

/-- Reads a run of decimal digits, returning their number, their value and the rest. -/
def read_digits : List Char → Nat → Nat → Nat × Nat × List Char
  | [], count, acc => (count, acc, [])
  | c :: rest, count, acc =>
    if c.isDigit then read_digits rest (count + 1) (acc * 10 + (c.toNat - '0'.toNat))
    else (count, acc, c :: rest)

/-- Reads an integer: an optional minus sign and at least one digit. -/
def read_number (cs : List Char) : Option (Int × List Char) :=
  match cs with
  | '-' :: rest =>
    match read_digits rest 0 0 with
    | (0, _, _) => none
    | (_, n, rest') => some (-(n : Int), rest')
  | _ =>
    match read_digits cs 0 0 with
    | (0, _, _) => none
    | (_, n, rest') => some ((n : Int), rest')

/-- Sets the value of a key among the members of an object, replacing an earlier value. -/
def members_assign : List (String × json_value) → String → json_value →
    List (String × json_value)
  | [], k, v => [(k, v)]
  | (k', v') :: rest, k, v =>
    if k' = k then (k, v) :: rest else (k', v') :: members_assign rest k v

mutual

/-- Reads one value; `fuel` bounds the number of nested reads. -/
def read_value : Nat → List Char → Option (json_value × List Char)
  | 0, _ => none
  | fuel + 1, cs =>
    match skip_ws cs with
    | 'n' :: 'u' :: 'l' :: 'l' :: rest => some (.null, rest)
    | 't' :: 'r' :: 'u' :: 'e' :: rest => some (.boolean true, rest)
    | 'f' :: 'a' :: 'l' :: 's' :: 'e' :: rest => some (.boolean false, rest)
    | '"' :: rest =>
      match read_string rest [] with
      | some (s, rest') => some (.string s, rest')
      | none => none
    | '[' :: rest =>
      match skip_ws rest with
      | ']' :: rest' => some (.array [], rest')
      | rest' => read_elements fuel rest' []
    | '{' :: rest =>
      match skip_ws rest with
      | '}' :: rest' => some (.object [], rest')
      | rest' => read_members fuel rest' []
    | cs' =>
      match read_number cs' with
      | some (n, rest) => some (.number n, rest)
      | none => none

/-- Reads the elements of an array up to the closing bracket. -/
def read_elements : Nat → List Char → List json_value → Option (json_value × List Char)
  | 0, _, _ => none
  | fuel + 1, cs, acc =>
    match read_value fuel cs with
    | none => none
    | some (v, rest) =>
      match skip_ws rest with
      | ',' :: rest' => read_elements fuel rest' (v :: acc)
      | ']' :: rest' => some (.array (v :: acc).reverse, rest')
      | _ => none

/-- Reads the members of an object up to the closing brace. -/
def read_members : Nat → List Char → List (String × json_value) →
    Option (json_value × List Char)
  | 0, _, _ => none
  | fuel + 1, cs, acc =>
    match skip_ws cs with
    | '"' :: rest =>
      match read_string rest [] with
      | none => none
      | some (k, rest') =>
        match skip_ws rest' with
        | ':' :: rest'' =>
          match read_value fuel rest'' with
          | none => none
          | some (v, rest3) =>
            match skip_ws rest3 with
            | ',' :: rest4 => read_members fuel rest4 (members_assign acc k v)
            | '}' :: rest4 => some (.object (members_assign acc k v), rest4)
            | _ => none
        | _ => none
    | _ => none

end

/-- Reads a whole text as one JSON value; anything else is a `parse_error`. -/
def json_read (s : String) : Except cxx_exception json_value :=
  match read_value (2 * s.data.length + 2) s.data with
  | some (v, rest) => if (skip_ws rest).isEmpty then .ok v else .error .parse_error
  | none => .error .parse_error

/-- Escapes the characters of a string for output. -/
def json_escape : List Char → List Char
  | [] => []
  | c :: rest =>
    if c = '"' then '\\' :: '"' :: json_escape rest
    else if c = '\\' then '\\' :: '\\' :: json_escape rest
    else if c = '\n' then '\\' :: 'n' :: json_escape rest
    else if c = '\t' then '\\' :: 't' :: json_escape rest
    else if c = '\r' then '\\' :: 'r' :: json_escape rest
    else c :: json_escape rest

mutual

/-- Writes a value as compact JSON text. -/
def json_write : json_value → List Char
  | .null => "null".data
  | .boolean true => "true".data
  | .boolean false => "false".data
  | .number n => (toString n).data
  | .string s => '"' :: json_escape s.data ++ ['"']
  | .array xs => '[' :: json_write_elements xs ++ [']']
  | .object ms => '{' :: json_write_members ms ++ ['}']

/-- Writes the elements of an array, separated by commas. -/
def json_write_elements : List json_value → List Char
  | [] => []
  | [v] => json_write v
  | v :: rest => json_write v ++ ',' :: json_write_elements rest

/-- Writes the members of an object, separated by commas. -/
def json_write_members : List (String × json_value) → List Char
  | [] => []
  | [(k, v)] => '"' :: json_escape k.data ++ '"' :: ':' :: json_write v
  | (k, v) :: rest =>
    '"' :: json_escape k.data ++ '"' :: ':' :: json_write v ++ ',' :: json_write_members rest

end

/-- The reader and writer above as the JSON utilities of the decoders. -/
def text_json : json_utils where
  parse := json_read
  generate := fun v => ⟨json_write v⟩

/-- A generic table keyed by status and body substring, for the concrete runs: status 429 with
a marker in the body is a rate or quota limit, every other combination is an internal server
failure. -/
def sample_extract_common_error_code (status_code : Nat) (response_body : String) : error_code :=
  if status_code = 429 then
    if str_contains response_body "Limit(s) exceeded" then .common .rate_limited
    else if str_contains response_body "Maximum number of collections has been reached for scope"
    then .common .quota_limited
    else .common .internal_server_failure
  else .common .internal_server_failure

/-- The durability extras set on a frame: the arguments of each call of
`body().durability(level, timeout)`, in order. -/
def durability_calls : List frame_call → List (durability_level × Option Nat)
  | [] => []
  | .body_durability level timeout :: rest => (level, timeout) :: durability_calls rest
  | _ :: rest => durability_calls rest

/-! ## mcbp_noop -/

/-- The fields of `mcbp_noop_request` that `encode_to` reads.  The field `opaque` of the source
is `opaque_id` here. -/
structure mcbp_noop_request where
  partition : Nat := 0
  opaque_id : Nat := 0
  deriving DecidableEq, Repr

/-- The `mcbp_noop_response`: the error context and nothing else. -/
structure mcbp_noop_response where
  ctx : key_value_error_context
  deriving DecidableEq, Repr

/-- `mcbp_noop_request::encode_to`: the frame is the sequence of setter calls made on it so
far; the calls of the encoder are appended. -/
def mcbp_noop_request.encode_to (self : mcbp_noop_request) (encoded : List frame_call) :
    error_code × List frame_call :=
  let encoded := encoded ++ [.opaque_id self.opaque_id]
  let encoded := encoded ++ [.partition self.partition]
  (.success, encoded)

/-- `mcbp_noop_request::make_response`; the response frame, of any type, is not read. -/
def mcbp_noop_request.make_response {frame : Type} (_self : mcbp_noop_request)
    (ctx : key_value_error_context) (_encoded : frame) : mcbp_noop_response :=
  let response : mcbp_noop_response := { ctx := ctx }
  response

/-! ## Formatting of error map attributes -/

/-- A value of the enumeration `key_value_error_map_attribute`: one of the eighteen enumerators
the formatter names, or `undeclared raw` for a value of the underlying integer type that is
none of them. -/
inductive key_value_error_map_attribute where
  | success
  | item_only
  | invalid_input
  | fetch_config
  | conn_state_invalidated
  | auth
  | special_handling
  | support
  | temp
  | internal
  | retry_now
  | retry_later
  | subdoc
  | dcp
  | auto_retry
  | item_locked
  | item_deleted
  | rate_limit
  | undeclared (raw : Nat)
  deriving DecidableEq, Repr

/-- The name chosen by the `switch` of the formatter; `unknown` is the initial value, kept when
no `case` matches. -/
def key_value_error_map_attribute.name : key_value_error_map_attribute → String
  | .success => "success"
  | .item_only => "item-only"
  | .invalid_input => "invalid-input"
  | .fetch_config => "fetch-config"
  | .conn_state_invalidated => "conn-state-invalidated"
  | .auth => "auth"
  | .special_handling => "special-handling"
  | .support => "support"
  | .temp => "temp"
  | .internal => "internal"
  | .retry_now => "retry-now"
  | .retry_later => "retry-later"
  | .subdoc => "subdoc"
  | .dcp => "dcp"
  | .auto_retry => "auto-retry"
  | .item_locked => "item-locked"
  | .item_deleted => "item-deleted"
  | .rate_limit => "rate-limit"
  | .undeclared _ => "unknown"

/-- `fmt::formatter<key_value_error_map_attribute>::format`: the text written to the output. -/
def key_value_error_map_attribute.format (attr : key_value_error_map_attribute) : String :=
  fmt_format "{}" [attr.name]

/-- The enumerators of `key_value_error_map_attribute`. -/
def key_value_error_map_attribute.declared : key_value_error_map_attribute → Bool
  | .undeclared _ => false
  | _ => true

/-! ## initiate_unlock_operation -/

/-- The `io::retry_context` of a request, built from a retry strategy. -/
structure retry_context (strategy_type : Type) where
  strategy : strategy_type

/-- The `operations::unlock_request`, with its members in the order of the aggregate
initialisation in `unlock.cxx`.  The declaration is not among the sources: the types of the
timeout and of the retry strategy are parameters.  The member `opaque` of the source is
`opaque_id` here. -/
structure unlock_request (timeout_type strategy_type : Type) where
  id : document_id
  partition : Nat
  opaque_id : Nat
  cas : Nat
  timeout : timeout_type
  retries : retry_context strategy_type

/-- The `operations::unlock_response`: the error context and, in `rest`, whatever else the
response holds. -/
structure unlock_response (rest_type : Type) where
  ctx : key_value_error_context
  rest : rest_type

/-- The members of `unlock_options::built` that `initiate_unlock_operation` reads. -/
structure unlock_options_built (timeout_type strategy_type : Type) where
  timeout : timeout_type
  retry_strategy : strategy_type

/-- `initiate_unlock_operation`: the calls of `core->execute` it makes, each a request and the
completion callback handed over with it.  `{}` value-initialises partition and opaque to 0.
The handler returns a value of type `effect`, which stands for what running it does. -/
def initiate_unlock_operation {timeout_type strategy_type rest_type effect : Type}
    (bucket_name scope_name collection_name document_key : String) (cas : Nat)
    (options : unlock_options_built timeout_type strategy_type)
    (handler : key_value_error_context → effect) :
    List (unlock_request timeout_type strategy_type × (unlock_response rest_type → effect)) :=
  [({ id := { bucket := bucket_name, scope := scope_name, collection := collection_name,
              key := document_key },
      partition := 0,
      opaque_id := 0,
      cas := cas,
      timeout := options.timeout,
      retries := { strategy := options.retry_strategy } },
    fun resp => handler resp.ctx)]

/-! ## transactions_config -/

/-- A `std::chrono::duration<Rep, std::ratio<num, den>>` with an integral `Rep`: `count` ticks
of `num / den` seconds each. -/
structure duration where
  count : Int
  num : Nat
  den : Nat
  deriving DecidableEq, Repr

/-- Whether an integer is a value of the signed 64-bit type in which `duration_cast` computes. -/
def int64_fits (x : Int) : Bool :=
  decide (-(2 ^ 63 : Int) ≤ x) && decide (x < (2 ^ 63 : Int))

/-- The value an integer takes in the signed 64-bit type: itself when it fits, and otherwise
reduced modulo `2 ^ 64` into the range, which is what the arithmetic of the compiled code
yields on overflow. -/
def wrap_int64 (x : Int) : Int :=
  (x + 2 ^ 63) % 2 ^ 64 - 2 ^ 63

/-- `std::chrono::duration_cast<std::chrono::milliseconds>(d)`, the count of the result.  The
conversion factor is the ratio of the two periods in lowest terms, `cf_num / cf_den`; the
library computes in the signed 64-bit type, multiplies only when `cf_num` is not 1 and divides
only when `cf_den` is not 1, and the division of C++ truncates toward zero. -/
def duration_cast_milliseconds (d : duration) : Int :=
  let g := Nat.gcd (d.num * 1000) d.den
  let cf_num := d.num * 1000 / g
  let cf_den := d.den / g
  let count := wrap_int64 d.count
  if cf_num = 1 ∧ cf_den = 1 then
    count
  else if cf_den = 1 then
    wrap_int64 (count * cf_num)
  else if cf_num = 1 then
    count.tdiv cf_den
  else
    (wrap_int64 (count * cf_num)).tdiv cf_den

/-- A `transaction_keyspace`, as built by `metadata_collection(bucket, scope, collection)`. -/
structure transaction_keyspace where
  bucket : String
  scope : String
  collection : String
  deriving DecidableEq, Repr

/-- The data members of `transactions_config` apart from the two pointers to testing hooks.
Durations are kept as their counts: nanoseconds for `expiration_time_`, milliseconds for
`kv_timeout_`.  The types of the query and cleanup configurations are parameters. -/
structure transactions_config (query_type cleanup_type : Type) where
  level_ : durability_level
  expiration_time_ : Int
  kv_timeout_ : Option Int
  metadata_collection_ : Option transaction_keyspace
  query_config_ : query_type
  cleanup_config_ : cleanup_type

/-- The getter `transactions_config::durability_level()`. -/
def transactions_config.durability_level {Q C : Type} (self : transactions_config Q C) :
    durability_level :=
  self.level_

/-- The getter `transactions_config::kv_timeout()`. -/
def transactions_config.kv_timeout {Q C : Type} (self : transactions_config Q C) : Option Int :=
  self.kv_timeout_

/-- The getter `transactions_config::expiration_time()`. -/
def transactions_config.expiration_time {Q C : Type} (self : transactions_config Q C) : Int :=
  self.expiration_time_

/-- The getter `transactions_config::metadata_collection()`. -/
def transactions_config.metadata_collection {Q C : Type} (self : transactions_config Q C) :
    Option transaction_keyspace :=
  self.metadata_collection_

/-- The getter `transactions_config::query_config()`. -/
def transactions_config.query_config {Q C : Type} (self : transactions_config Q C) : Q :=
  self.query_config_

/-- The getter `transactions_config::cleanup_config()`. -/
def transactions_config.cleanup_config {Q C : Type} (self : transactions_config Q C) : C :=
  self.cleanup_config_

/-- The setter `transactions_config::kv_timeout(T duration)`: the configuration after the
call. -/
def transactions_config.kv_timeout_assign {Q C : Type} (self : transactions_config Q C)
    (d : duration) : transactions_config Q C :=
  { self with kv_timeout_ := some (duration_cast_milliseconds d) }

/-! ## pillowfight: the error report of `do_work` -/

/-- The block of `do_work` that prints the recorded errors, as the list of the texts printed.
`message` is `std::error_code::message`, `ec` is the error code bound by the structured
binding of `cluster::connect` earlier in `do_work`, and `errors` holds the entries of the map
in iteration order. -/
def do_work_error_stats (message : error_code → String) (ec : error_code)
    (errors : List (error_code × Nat)) : List String :=
  if !errors.isEmpty then
    "error stats:\n" ::
      errors.map fun (_e, count) => fmt_format "    {}: {}\n" [message ec, toString count]
  else
    []

/-- A message text for each error code, for the concrete runs; the default-constructed code has
the message `Success`. -/
def sample_message : error_code → String
  | .success => "Success"
  | .common .invalid_argument => "invalid_argument"
  | .common .internal_server_failure => "internal_server_failure"
  | .common .parsing_failure => "parsing_failure"
  | .common .index_not_found => "index_not_found"
  | .common .index_exists => "index_exists"
  | .common .rate_limited => "rate_limited"
  | .common .quota_limited => "quota_limited"
  | .other category value => category ++ ":" ++ toString value

/-! ## Helper lemmas -/

theorem str_empty_eq_true_iff (s : String) : str_empty s = true ↔ s = "" := by
  cases s with
  | mk data =>
    cases data with
    | nil => simp [str_empty]
    | cons c cs =>
      simp only [str_empty, List.isEmpty_cons, Bool.false_eq_true, false_iff]
      intro h
      have := congrArg String.data h
      simp at this

theorem str_empty_eq_false_iff (s : String) : str_empty s = false ↔ s ≠ "" := by
  rw [Ne, ← str_empty_eq_true_iff]; simp

theorem map_find_assign_same (m : List (String × String)) (k v : String) :
    map_find (map_assign m k v) k = some v := by
  induction m with
  | nil => simp [map_assign, map_find]
  | cons kv rest ih =>
    obtain ⟨k', v'⟩ := kv
    by_cases h : k' = k
    · simp [map_assign, map_find, h]
    · simp [map_assign, map_find, h, ih]

theorem map_find_assign_other (m : List (String × String)) (k v k₀ : String) (h₀ : k ≠ k₀) :
    map_find (map_assign m k v) k₀ = map_find m k₀ := by
  induction m with
  | nil => simp [map_assign, map_find, h₀]
  | cons kv rest ih =>
    obtain ⟨k', v'⟩ := kv
    by_cases h : k' = k
    · subst h; simp [map_assign, map_find, h₀]
    · by_cases h' : k' = k₀
      · subst h'; simp [map_assign, map_find, h]
      · simp [map_assign, map_find, h, h', ih]

theorem find_from_isSome_iff (needle hay : List Char) (pos : Nat) :
    (find_from needle hay pos).isSome = true ↔ needle <:+: hay := by
  induction hay generalizing pos with
  | nil =>
    cases needle with
    | nil => simp [find_from]
    | cons a l => simp [find_from]
  | cons c rest ih =>
    rw [List.infix_cons_iff, ← ih (pos + 1), ← List.isPrefixOf_iff_prefix]
    by_cases h : needle.isPrefixOf (c :: rest) = true
    · simp [find_from, h]
    · simp [find_from, h]

/-- The source's test `hay.find(needle) != npos` holds exactly when `needle` occurs in `hay` as a
contiguous run of characters. -/
theorem str_contains_iff_infix (hay needle : String) :
    str_contains hay needle = true ↔ needle.data <:+: hay.data := by
  simp only [str_contains, str_find]
  exact find_from_isSome_iff _ _ _

/-! ## search_index_analyze_document: encoding -/

/-- C1: when `index_name` is empty, `encode_to` of the analyze-document request returns
`errc::common::invalid_argument` and hands back the message exactly as it was passed in. -/
theorem analyze_encode_to_empty_index_name (req : search_index_analyze_document_request)
    (encoded : http_request) (h : req.index_name = "") :
    req.encode_to encoded = (.common .invalid_argument, encoded) := by
  have h' : str_empty req.index_name = true := (str_empty_eq_true_iff _).2 h
  simp [search_index_analyze_document_request.encode_to, h']

/-- C1, at the request with an empty index name and a message that already has content. -/
theorem analyze_encode_to_empty_index_name_witness :
    (⟨"", "\x7b\"title\":\"x\"\x7d"⟩ : search_index_analyze_document_request).index_name = "" ∧
    (⟨"", "\x7b\"title\":\"x\"\x7d"⟩ : search_index_analyze_document_request).encode_to
        { method := "GET", path := "/pools", headers := [("accept", "*/*")], body := "b" }
      = (.common .invalid_argument,
          { method := "GET", path := "/pools", headers := [("accept", "*/*")], body := "b" }) :=
  ⟨rfl, analyze_encode_to_empty_index_name _ _ rfl⟩

/-- C10: with a non-empty `index_name`, `encode_to` of the analyze-document request succeeds and
the message has method `POST`, the headers `cache-control: no-cache` and
`content-type: application/json`, the path `/api/index/<index_name>/analyzeDoc` and the
request's encoded document as body. -/
theorem analyze_encode_to_message (req : search_index_analyze_document_request)
    (encoded : http_request) (h : req.index_name ≠ "") :
    (req.encode_to encoded).1 = .success ∧
    (req.encode_to encoded).2.method = "POST" ∧
    map_find (req.encode_to encoded).2.headers "cache-control" = some "no-cache" ∧
    map_find (req.encode_to encoded).2.headers "content-type" = some "application/json" ∧
    (req.encode_to encoded).2.path = "/api/index/" ++ req.index_name ++ "/analyzeDoc" ∧
    (req.encode_to encoded).2.body = req.encoded_document := by
  have h' : str_empty req.index_name = false := (str_empty_eq_false_iff _).2 h
  have hrun : req.encode_to encoded = (.success,
      { method := "POST",
        path := fmt_format "/api/index/{}/analyzeDoc" [req.index_name],
        headers := map_assign (map_assign encoded.headers "cache-control" "no-cache")
          "content-type" "application/json",
        body := req.encoded_document }) := by
    simp [search_index_analyze_document_request.encode_to, h']
  rw [hrun]
  refine ⟨rfl, rfl, ?_, ?_, rfl, rfl⟩
  · show map_find (map_assign (map_assign encoded.headers "cache-control" "no-cache")
        "content-type" "application/json") "cache-control" = some "no-cache"
    rw [map_find_assign_other _ _ _ _ (by decide), map_find_assign_same]
  · exact map_find_assign_same _ _ _

/-- C10, at the index `travel` with a message that already carries other header values. -/
theorem analyze_encode_to_message_witness :
    (⟨"travel", "\x7b\"a\":1\x7d"⟩ : search_index_analyze_document_request).index_name ≠ "" ∧
    ((⟨"travel", "\x7b\"a\":1\x7d"⟩ : search_index_analyze_document_request).encode_to
        { headers := [("content-type", "text/plain")] }).2
      = { method := "POST", path := "/api/index/travel/analyzeDoc",
          headers := [("content-type", "application/json"), ("cache-control", "no-cache")],
          body := "\x7b\"a\":1\x7d" } ∧
    map_find ((⟨"travel", "\x7b\"a\":1\x7d"⟩ : search_index_analyze_document_request).encode_to
        { headers := [("content-type", "text/plain")] }).2.headers "cache-control"
      = some "no-cache" :=
  ⟨by decide, by decide,
    (analyze_encode_to_message ⟨"travel", "\x7b\"a\":1\x7d"⟩
      { headers := [("content-type", "text/plain")] } (by decide)).2.2.1⟩

/-! ## remove: encoding and decoding -/

/-- C3: `encode_to` of a remove request sets the durability extra exactly when the level is
not `none`: the calls it makes on the frame contain no durability call for level `none`, and
otherwise exactly one, with the request's level and its optional timeout unchanged. -/
theorem remove_encode_to_durability_extra (req : remove_request) (encoded : List frame_call) :
    ∃ calls, (req.encode_to encoded).2 = encoded ++ calls ∧
      durability_calls calls =
        (if req.durability_level = .none then []
         else [(req.durability_level, req.durability_timeout)]) ∧
      ((∃ level timeout, frame_call.body_durability level timeout ∈ calls) ↔
        req.durability_level ≠ .none) := by
  by_cases h : req.durability_level = .none
  · refine ⟨[.opaque_id req.opaque_id, .partition req.partition, .cas req.cas,
      .body_id req.id], ?_, ?_, ?_⟩
    · simp [remove_request.encode_to, h]
    · simp [durability_calls, h]
    · simp [h]
  · refine ⟨[.opaque_id req.opaque_id, .partition req.partition, .cas req.cas,
      .body_id req.id, .body_durability req.durability_level req.durability_timeout], ?_, ?_, ?_⟩
    · simp [remove_request.encode_to, h]
    · simp [durability_calls, h]
    · simp [h]

/-- C4: when the incoming error context has no error, `make_response` of remove returns the
CAS of the frame and a mutation token with the sequence number and partition uuid of the
frame's token. -/
theorem remove_make_response_success (ctx : key_value_error_context) (req : remove_request)
    (encoded : remove_response_frame) (h : ctx.ec.failed = false) :
    (remove_request.make_response ctx req encoded).cas = encoded.cas ∧
    (remove_request.make_response ctx req encoded).token.sequence_number
      = encoded.token.sequence_number ∧
    (remove_request.make_response ctx req encoded).token.partition_uuid
      = encoded.token.partition_uuid := by
  simp [remove_request.make_response, h]

/-- C4, at a frame with CAS 0x1122 and sequence number 7. -/
theorem remove_make_response_success_witness :
    (remove_request.make_response {} { id := { bucket := "b", key := "k" } }
        { cas := 0x1122, token := { partition_uuid := 99, sequence_number := 7 } }).cas
      = 0x1122 ∧
    (remove_request.make_response {} { id := { bucket := "b", key := "k" } }
        { cas := 0x1122, token := { partition_uuid := 99, sequence_number := 7 } }
      ).token.sequence_number = 7 ∧
    (remove_request.make_response {} { id := { bucket := "b", key := "k" } }
        { cas := 0x1122, token := { partition_uuid := 99, sequence_number := 7 } }
      ).token.partition_uuid = 99 :=
  remove_make_response_success {} { id := { bucket := "b", key := "k" } }
    { cas := 0x1122, token := { partition_uuid := 99, sequence_number := 7 } } rfl

/-- C9 as stated fails: with an error context that already carries an error, the CAS 0x1122 and
the token of the frame are not read; the response keeps CAS 0 and the default token. -/
theorem remove_make_response_error_skips_frame :
    (key_value_error_context.mk (.other "couchbase.key_value" 101)
        { bucket := "b", key := "k" }).ec.failed = true ∧
    (remove_request.make_response
        ⟨.other "couchbase.key_value" 101, { bucket := "b", key := "k" }⟩
        { id := { bucket := "b", key := "k" }, partition := 5 }
        { cas := 0x1122, token := { partition_uuid := 99, sequence_number := 7 } }).cas = 0 ∧
    (remove_request.make_response
        ⟨.other "couchbase.key_value" 101, { bucket := "b", key := "k" }⟩
        { id := { bucket := "b", key := "k" }, partition := 5 }
        { cas := 0x1122, token := { partition_uuid := 99, sequence_number := 7 } }).token
      = {} ∧
    (remove_request.make_response
        ⟨.other "couchbase.key_value" 101, { bucket := "b", key := "k" }⟩
        { id := { bucket := "b", key := "k" }, partition := 5 }
        { cas := 0x1122, token := { partition_uuid := 99, sequence_number := 7 } }).cas
      ≠ 0x1122 := by
  decide

/-- C9, amended: without an incoming error the response carries the CAS of the frame and the
frame's token with the partition id of the request and the bucket of the context's document
id; with an incoming error the frame is not read and CAS and token keep their defaults. -/
theorem remove_make_response_cases (ctx : key_value_error_context) (req : remove_request)
    (encoded : remove_response_frame) :
    remove_request.make_response ctx req encoded =
      (if ctx.ec.failed then { ctx := ctx, cas := 0, token := {} }
       else
        { ctx := ctx, cas := encoded.cas,
          token :=
            { partition_uuid := encoded.token.partition_uuid,
              sequence_number := encoded.token.sequence_number,
              partition_id := req.partition,
              bucket_name := ctx.id.bucket } }) := by
  cases h : ctx.ec.failed <;> simp [remove_request.make_response, h]

/-! ## search_index_analyze_document: decoding -/

/-- C2 as stated fails: with no incoming error and status 400, the body `index not found`
contains the marker but is not JSON, and the response carries `parsing_failure`; the body
of the second run is JSON and contains the marker outside its `error` member, and the response
carries what the generic table returns. -/
theorem analyze_400_body_marker_not_decisive :
    str_contains "index not found" "index not found" = true ∧
    search_index_analyze_document_request.make_response text_json
        sample_extract_common_error_code ⟨"idx", "[]"⟩ {} ⟨400, "index not found"⟩
      = .ok { ctx := { ec := .common .parsing_failure } } ∧
    str_contains "\x7b\"status\":\"index not found\",\"error\":\"bad request\"\x7d"
        "index not found" = true ∧
    search_index_analyze_document_request.make_response text_json
        sample_extract_common_error_code ⟨"idx", "[]"⟩ {}
        ⟨400, "\x7b\"status\":\"index not found\",\"error\":\"bad request\"\x7d"⟩
      = .ok { ctx := { ec := .common .internal_server_failure },
              status := "index not found", error := "bad request" } :=
  ⟨rfl, rfl, rfl, rfl⟩

/-- C2, amended: with no incoming error and status 400, a body that parses to an object whose
members `status` and `error` are strings, the `error` text containing `index not found`, gives
`ctx.ec = errc::common::index_not_found`, whatever the generic table would return. -/
theorem analyze_400_error_member_index_not_found (json : json_utils)
    (extract_common_error_code : Nat → String → error_code)
    (req : search_index_analyze_document_request) (ctx : http_error_context) (body : String)
    (payload : json_value) (status error : String)
    (hctx : ctx.ec.failed = false)
    (hparse : json.parse body = .ok payload)
    (hstatus : payload.at "status" = .ok (.string status))
    (herror : payload.at "error" = .ok (.string error))
    (hmarker : str_contains error "index not found" = true) :
    ∃ response,
      req.make_response json extract_common_error_code ctx ⟨400, body⟩ = .ok response ∧
      response.ctx.ec = .common .index_not_found := by
  by_cases hraw : str_contains body "no indexName:" = true
  · refine ⟨{ ctx := { ctx with ec := .common .index_not_found } }, ?_, rfl⟩
    simp [search_index_analyze_document_request.make_response, hctx, hraw]
  · refine ⟨{ ctx := { ctx with ec := .common .index_not_found },
              status := status, error := error }, ?_, rfl⟩
    simp [search_index_analyze_document_request.make_response, hctx, hraw, hparse, hstatus,
      herror, hmarker, json_value.get_string, bind, Except.bind]

/-- C2 amended, at a body whose `error` member holds the marker, with a generic table that maps
status 400 to an internal server failure. -/
theorem analyze_400_error_member_index_not_found_witness :
    ∃ response,
      search_index_analyze_document_request.make_response text_json
          sample_extract_common_error_code ⟨"idx", "[]"⟩ {}
          ⟨400, "\x7b\"status\":\"fail\",\"error\":\"rest: index not found\"\x7d"⟩
        = .ok response ∧
      response.ctx.ec = .common .index_not_found :=
  analyze_400_error_member_index_not_found text_json sample_extract_common_error_code
    ⟨"idx", "[]"⟩ {} "\x7b\"status\":\"fail\",\"error\":\"rest: index not found\"\x7d"
    (.object [("status", .string "fail"), ("error", .string "rest: index not found")])
    "fail" "rest: index not found" rfl rfl rfl rfl rfl

/-- C5 fails on the code: a body that is JSON but lacks a member lets a C++ exception escape
`make_response`.  Status 200 with the body `{}` and status 400 with only `status` throw
`std::out_of_range`, as does status 200 with `status` equal to `ok` and no `analyzed`; a
`status` that is not a string throws `std::bad_variant_access`. -/
theorem analyze_make_response_missing_member_throws :
    search_index_analyze_document_request.make_response text_json
        sample_extract_common_error_code ⟨"idx", "[]"⟩ {} ⟨200, "\x7b\x7d"⟩
      = .error .out_of_range ∧
    search_index_analyze_document_request.make_response text_json
        sample_extract_common_error_code ⟨"idx", "[]"⟩ {} ⟨400, "\x7b\"status\":\"fail\"\x7d"⟩
      = .error .out_of_range ∧
    search_index_analyze_document_request.make_response text_json
        sample_extract_common_error_code ⟨"idx", "[]"⟩ {} ⟨200, "\x7b\"status\":\"ok\"\x7d"⟩
      = .error .out_of_range ∧
    search_index_analyze_document_request.make_response text_json
        sample_extract_common_error_code ⟨"idx", "[]"⟩ {} ⟨200, "\x7b\"status\":1\x7d"⟩
      = .error .bad_variant_access :=
  ⟨rfl, rfl, rfl, rfl⟩

/-- C6 as stated fails: with no incoming error, status 201 and a body that is not JSON, the
body is never parsed and the response carries the code of the generic table, here an internal
server failure, not `parsing_failure`. -/
theorem analyze_201_malformed_body_not_parsing_failure :
    text_json.parse "not json" = .error .parse_error ∧
    search_index_analyze_document_request.make_response text_json
        sample_extract_common_error_code ⟨"idx", "[]"⟩ {} ⟨201, "not json"⟩
      = .ok { ctx := { ec := .common .internal_server_failure } } ∧
    error_code.common .internal_server_failure ≠ .common .parsing_failure :=
  ⟨rfl, rfl, by decide⟩

/-- C6, amended: with no incoming error and a body that is not well-formed JSON, status 200
gives `ctx.ec = errc::common::parsing_failure` with nothing else decoded; for every other
status in 201..299 the body is not parsed and `ctx.ec` is the code of the generic table. -/
theorem analyze_malformed_body_2xx (json : json_utils)
    (extract_common_error_code : Nat → String → error_code)
    (req : search_index_analyze_document_request) (ctx : http_error_context)
    (status_code : Nat) (body : String)
    (hctx : ctx.ec.failed = false)
    (hparse : json.parse body = .error .parse_error) :
    (status_code = 200 →
      req.make_response json extract_common_error_code ctx ⟨status_code, body⟩
        = .ok { ctx := { ctx with ec := .common .parsing_failure } }) ∧
    (201 ≤ status_code → status_code ≤ 299 →
      req.make_response json extract_common_error_code ctx ⟨status_code, body⟩
        = .ok { ctx := { ctx with ec := extract_common_error_code status_code body } }) := by
  constructor
  · intro h200
    subst h200
    simp [search_index_analyze_document_request.make_response, hctx, hparse]
  · intro hlo hhi
    have h200 : status_code ≠ 200 := by omega
    have h400 : status_code ≠ 400 := by omega
    simp [search_index_analyze_document_request.make_response, hctx, h200, h400]

/-- C6 amended, at status 200 with the body `not json`. -/
theorem analyze_malformed_body_2xx_witness :
    search_index_analyze_document_request.make_response text_json
        sample_extract_common_error_code ⟨"idx", "[]"⟩ { info := "POST /api/index" }
        ⟨200, "not json"⟩
      = .ok { ctx := { ec := .common .parsing_failure, info := "POST /api/index" } } :=
  (analyze_malformed_body_2xx text_json sample_extract_common_error_code ⟨"idx", "[]"⟩
    { info := "POST /api/index" } 200 "not json" rfl rfl).1 rfl

/-! ## eventing_undeploy_function -/

/-- C7: with no incoming error and an empty body, `make_response` of the undeploy operation
returns a response whose context is the incoming one, still without an error code, and whose
problem field is absent. -/
theorem eventing_make_response_empty_body {problem : Type} (json : json_utils)
    (extract_eventing_error_code : json_value → Except cxx_exception (error_code × problem))
    (req : eventing_undeploy_function_request) (ctx : http_error_context)
    (encoded : http_response)
    (hctx : ctx.ec.failed = false) (hbody : encoded.body = "") :
    ∃ response,
      req.make_response json extract_eventing_error_code ctx encoded = .ok response ∧
      response.ctx = ctx ∧ response.ctx.ec.failed = false ∧ response.error = none := by
  have hempty : str_empty encoded.body = true := (str_empty_eq_true_iff _).2 hbody
  refine ⟨{ ctx := ctx, error := none }, ?_, rfl, hctx, rfl⟩
  simp [eventing_undeploy_function_request.make_response, hctx, hempty]

/-- C7, at status 200 with an empty body and a table that would report a problem for any
payload. -/
theorem eventing_make_response_empty_body_witness :
    ∃ response : eventing_undeploy_function_response String,
      eventing_undeploy_function_request.make_response text_json
          (fun _ => .ok (.other "couchbase.management" 610, "ERR_APP_NOT_FOUND_TS"))
          ⟨"on_update"⟩ { info := "POST /api/v1/functions" } ⟨200, ""⟩ = .ok response ∧
      response.ctx = { info := "POST /api/v1/functions" } ∧
      response.ctx.ec.failed = false ∧ response.error = none :=
  eventing_make_response_empty_body text_json
    (fun _ => .ok (.other "couchbase.management" 610, "ERR_APP_NOT_FOUND_TS"))
    ⟨"on_update"⟩ { info := "POST /api/v1/functions" } ⟨200, ""⟩ rfl rfl

/-- C8 fails on the code: `encode_to` of the undeploy request has no check of the name.  With
an empty name it returns success and builds the path `/api/v1/functions//undeploy`. -/
theorem eventing_encode_to_empty_name_succeeds :
    (⟨""⟩ : eventing_undeploy_function_request).encode_to {}
      = (.success, { method := "POST", path := "/api/v1/functions//undeploy" }) ∧
    ((⟨""⟩ : eventing_undeploy_function_request).encode_to {}).1
      ≠ .common .invalid_argument := by
  decide

/-! ## search_index_analyze_document: the outcomes of decoding -/

/-- C11 as stated fails: at status 400 the body `{"error":"bad request"}` lacks
`no indexName:` and its parsed `error` holds neither marker, yet no response is returned: the
lookup of the member `status`, which comes first, throws `std::out_of_range`. -/
theorem analyze_400_error_without_status_throws :
    str_contains "\x7b\"error\":\"bad request\"\x7d" "no indexName:" = false ∧
    text_json.parse "\x7b\"error\":\"bad request\"\x7d"
      = .ok (.object [("error", .string "bad request")]) ∧
    str_contains "bad request" "index not found" = false ∧
    str_contains "bad request" "index with the same name already exists" = false ∧
    search_index_analyze_document_request.make_response text_json
        sample_extract_common_error_code ⟨"idx", "[]"⟩ {}
        ⟨400, "\x7b\"error\":\"bad request\"\x7d"⟩
      = .error .out_of_range :=
  ⟨rfl, rfl, rfl, rfl, rfl⟩

/-- C11, amended: with no incoming error, when no outcome of the operation itself applies,
`ctx.ec` is the code of the generic table for the status and the body: for a status other than
200 and 400; for status 200 when the body parses to an object whose member `status` is a
string other than `ok`; and for status 400 when the body lacks `no indexName:` and parses to
an object whose members `status` and `error` are strings, the `error` text holding neither of
the two markers. -/
theorem analyze_generic_fallback (json : json_utils)
    (extract_common_error_code : Nat → String → error_code)
    (req : search_index_analyze_document_request) (ctx : http_error_context)
    (status_code : Nat) (body : String) (hctx : ctx.ec.failed = false) :
    (status_code ≠ 200 → status_code ≠ 400 →
      req.make_response json extract_common_error_code ctx ⟨status_code, body⟩
        = .ok { ctx := { ctx with ec := extract_common_error_code status_code body } }) ∧
    (∀ payload status, status_code = 200 → json.parse body = .ok payload →
      payload.at "status" = .ok (.string status) → status ≠ "ok" →
      req.make_response json extract_common_error_code ctx ⟨status_code, body⟩
        = .ok { ctx := { ctx with ec := extract_common_error_code status_code body },
                status := status }) ∧
    (∀ payload status error, status_code = 400 →
      str_contains body "no indexName:" = false → json.parse body = .ok payload →
      payload.at "status" = .ok (.string status) →
      payload.at "error" = .ok (.string error) →
      str_contains error "index not found" = false →
      str_contains error "index with the same name already exists" = false →
      req.make_response json extract_common_error_code ctx ⟨status_code, body⟩
        = .ok { ctx := { ctx with ec := extract_common_error_code status_code body },
                status := status, error := error }) := by
  refine ⟨?_, ?_, ?_⟩
  · intro h200 h400
    simp [search_index_analyze_document_request.make_response, hctx, h200, h400]
  · intro payload status h200 hparse hstatus hne
    subst h200
    simp [search_index_analyze_document_request.make_response, hctx, hparse, hstatus, hne,
      json_value.get_string, bind, Except.bind]
  · intro payload status error h400 hraw hparse hstatus herror hnf hex
    subst h400
    simp [search_index_analyze_document_request.make_response, hctx, hraw, hparse, hstatus,
      herror, hnf, hex, json_value.get_string, bind, Except.bind]

/-- C11 amended, at status 503, at status 200 with `status` equal to `busy`, and at status 400 with an
`error` text that holds no marker; the generic table says internal server failure each time. -/
theorem analyze_generic_fallback_witness :
    search_index_analyze_document_request.make_response text_json
        sample_extract_common_error_code ⟨"idx", "[]"⟩ {} ⟨503, "unavailable"⟩
      = .ok { ctx := { ec := .common .internal_server_failure } } ∧
    search_index_analyze_document_request.make_response text_json
        sample_extract_common_error_code ⟨"idx", "[]"⟩ {}
        ⟨200, "\x7b\"status\":\"busy\"\x7d"⟩
      = .ok { ctx := { ec := .common .internal_server_failure }, status := "busy" } ∧
    search_index_analyze_document_request.make_response text_json
        sample_extract_common_error_code ⟨"idx", "[]"⟩ {}
        ⟨400, "\x7b\"status\":\"fail\",\"error\":\"bad request\"\x7d"⟩
      = .ok { ctx := { ec := .common .internal_server_failure },
              status := "fail", error := "bad request" } :=
  ⟨(analyze_generic_fallback text_json sample_extract_common_error_code ⟨"idx", "[]"⟩ {}
      503 "unavailable" rfl).1 (by decide) (by decide),
   (analyze_generic_fallback text_json sample_extract_common_error_code ⟨"idx", "[]"⟩ {}
      200 "\x7b\"status\":\"busy\"\x7d" rfl).2.1
      (.object [("status", .string "busy")]) "busy" rfl rfl rfl (by decide),
   (analyze_generic_fallback text_json sample_extract_common_error_code ⟨"idx", "[]"⟩ {}
      400 "\x7b\"status\":\"fail\",\"error\":\"bad request\"\x7d" rfl).2.2
      (.object [("status", .string "fail"), ("error", .string "bad request")])
      "fail" "bad request" rfl rfl rfl rfl rfl rfl rfl⟩

/-- C16: with no incoming error and status 400, a body that contains `no indexName:` gives
`ctx.ec = errc::common::index_not_found` and nothing else is decoded, whatever the JSON reader
would make of the body: the marker is tested before the body is parsed. -/
theorem analyze_400_no_index_name (json : json_utils)
    (extract_common_error_code : Nat → String → error_code)
    (req : search_index_analyze_document_request) (ctx : http_error_context) (body : String)
    (hctx : ctx.ec.failed = false) (hraw : str_contains body "no indexName:" = true) :
    req.make_response json extract_common_error_code ctx ⟨400, body⟩
      = .ok { ctx := { ctx with ec := .common .index_not_found } } := by
  simp [search_index_analyze_document_request.make_response, hctx, hraw]

/-- C16, at a body that holds the marker and is not JSON. -/
theorem analyze_400_no_index_name_witness :
    text_json.parse "rest_index: no indexName: travel" = .error .parse_error ∧
    search_index_analyze_document_request.make_response text_json
        sample_extract_common_error_code ⟨"travel", "[]"⟩ {}
        ⟨400, "rest_index: no indexName: travel"⟩
      = .ok { ctx := { ec := .common .index_not_found } } :=
  ⟨rfl, analyze_400_no_index_name text_json sample_extract_common_error_code ⟨"travel", "[]"⟩ {}
    "rest_index: no indexName: travel" rfl rfl⟩

/-- C17: with no incoming error, status 400 and a body without `no indexName:` that parses to
an object with string members `status` and `error`: an `error` text with the marker
`index with the same name already exists` and without `index not found` gives `index_exists`;
an `error` text with both markers gives `index_not_found`; the response holds the parsed
`status` and `error` in both cases. -/
theorem analyze_400_error_markers (json : json_utils)
    (extract_common_error_code : Nat → String → error_code)
    (req : search_index_analyze_document_request) (ctx : http_error_context) (body : String)
    (payload : json_value) (status error : String)
    (hctx : ctx.ec.failed = false)
    (hraw : str_contains body "no indexName:" = false)
    (hparse : json.parse body = .ok payload)
    (hstatus : payload.at "status" = .ok (.string status))
    (herror : payload.at "error" = .ok (.string error))
    (hexists : str_contains error "index with the same name already exists" = true) :
    (str_contains error "index not found" = false →
      req.make_response json extract_common_error_code ctx ⟨400, body⟩
        = .ok { ctx := { ctx with ec := .common .index_exists },
                status := status, error := error }) ∧
    (str_contains error "index not found" = true →
      req.make_response json extract_common_error_code ctx ⟨400, body⟩
        = .ok { ctx := { ctx with ec := .common .index_not_found },
                status := status, error := error }) := by
  constructor
  · intro hnf
    simp [search_index_analyze_document_request.make_response, hctx, hraw, hparse, hstatus,
      herror, hnf, hexists, json_value.get_string, bind, Except.bind]
  · intro hnf
    simp [search_index_analyze_document_request.make_response, hctx, hraw, hparse, hstatus,
      herror, hnf, json_value.get_string, bind, Except.bind]

/-- C17, at an `error` text with the exists marker only and at one with both markers. -/
theorem analyze_400_error_markers_witness :
    search_index_analyze_document_request.make_response text_json
        sample_extract_common_error_code ⟨"idx", "[]"⟩ {}
        ⟨400, "\x7b\"status\":\"fail\",\"error\":\"index with the same name already exists\"\x7d"⟩
      = .ok { ctx := { ec := .common .index_exists }, status := "fail",
              error := "index with the same name already exists" } ∧
    search_index_analyze_document_request.make_response text_json
        sample_extract_common_error_code ⟨"idx", "[]"⟩ {}
        ⟨400, "\x7b\"status\":\"fail\",\"error\":\"index not found; index with the same name already exists\"\x7d"⟩
      = .ok { ctx := { ec := .common .index_not_found }, status := "fail",
              error := "index not found; index with the same name already exists" } :=
  ⟨(analyze_400_error_markers text_json sample_extract_common_error_code ⟨"idx", "[]"⟩ {}
      "\x7b\"status\":\"fail\",\"error\":\"index with the same name already exists\"\x7d"
      (.object [("status", .string "fail"),
        ("error", .string "index with the same name already exists")])
      "fail" "index with the same name already exists" rfl rfl rfl rfl rfl rfl).1 rfl,
   (analyze_400_error_markers text_json sample_extract_common_error_code ⟨"idx", "[]"⟩ {}
      "\x7b\"status\":\"fail\",\"error\":\"index not found; index with the same name already exists\"\x7d"
      (.object [("status", .string "fail"),
        ("error", .string "index not found; index with the same name already exists")])
      "fail" "index not found; index with the same name already exists"
      rfl rfl rfl rfl rfl rfl).2 rfl⟩

/-- C18: with no incoming error, status 200 and a body that parses to an object with `status`
equal to the string `ok` and a member `analyzed` with value `v`, the response has the incoming
context, still without an error code, `status` equal to `ok` and `analysis` equal to the
serialisation of `v`; the generic table has no part in the result. -/
theorem analyze_200_ok (json : json_utils)
    (extract_common_error_code : Nat → String → error_code)
    (req : search_index_analyze_document_request) (ctx : http_error_context) (body : String)
    (payload v : json_value)
    (hctx : ctx.ec.failed = false)
    (hparse : json.parse body = .ok payload)
    (hstatus : payload.at "status" = .ok (.string "ok"))
    (hanalyzed : payload.at "analyzed" = .ok v) :
    ∃ response,
      req.make_response json extract_common_error_code ctx ⟨200, body⟩ = .ok response ∧
      response.ctx = ctx ∧ response.ctx.ec.failed = false ∧
      response.status = "ok" ∧ response.analysis = json.generate v ∧ response.error = "" := by
  refine ⟨{ ctx := ctx, status := "ok", analysis := json.generate v }, ?_, rfl, hctx, rfl, rfl,
    rfl⟩
  simp [search_index_analyze_document_request.make_response, hctx, hparse, hstatus, hanalyzed,
    json_value.get_string, bind, Except.bind]

/-- C18, at a body whose `analyzed` member is an array of two numbers. -/
theorem analyze_200_ok_witness :
    ∃ response,
      search_index_analyze_document_request.make_response text_json
          sample_extract_common_error_code ⟨"idx", "[]"⟩ {}
          ⟨200, "\x7b\"status\":\"ok\",\"analyzed\":[1, 2]\x7d"⟩ = .ok response ∧
      response.ctx = {} ∧ response.ctx.ec.failed = false ∧
      response.status = "ok" ∧ response.analysis = text_json.generate
        (.array [.number 1, .number 2]) ∧ response.error = "" :=
  analyze_200_ok text_json sample_extract_common_error_code ⟨"idx", "[]"⟩ {}
    "\x7b\"status\":\"ok\",\"analyzed\":[1, 2]\x7d"
    (.object [("status", .string "ok"), ("analyzed", .array [.number 1, .number 2])])
    (.array [.number 1, .number 2]) rfl rfl rfl rfl

/-! ## Decoding under an incoming error -/

/-- C15: when the incoming error context already carries an error, the `make_response` of
remove, of analyze-document and of undeploy return the context unchanged and decode nothing,
for every frame, status and body and whatever the JSON reader and the tables would return:
remove leaves CAS 0 and the default token, analyze leaves `status`, `error` and `analysis`
empty, undeploy leaves the problem absent. -/
theorem make_response_keeps_incoming_error {problem : Type} (json : json_utils)
    (extract_common_error_code : Nat → String → error_code)
    (extract_eventing_error_code : json_value → Except cxx_exception (error_code × problem))
    (kv_ctx : key_value_error_context) (remove_req : remove_request)
    (frame : remove_response_frame)
    (http_ctx : http_error_context) (analyze_req : search_index_analyze_document_request)
    (undeploy_req : eventing_undeploy_function_request) (encoded : http_response)
    (hkv : kv_ctx.ec.failed = true) (hhttp : http_ctx.ec.failed = true) :
    remove_request.make_response kv_ctx remove_req frame
      = { ctx := kv_ctx, cas := 0, token := {} } ∧
    analyze_req.make_response json extract_common_error_code http_ctx encoded
      = .ok { ctx := http_ctx, status := "", error := "", analysis := "" } ∧
    undeploy_req.make_response json extract_eventing_error_code http_ctx encoded
      = .ok { ctx := http_ctx, error := none } := by
  refine ⟨?_, ?_, ?_⟩
  · simp [remove_request.make_response, hkv]
  · simp [search_index_analyze_document_request.make_response, hhttp]
  · simp [eventing_undeploy_function_request.make_response, hhttp]

/-- C15, at contexts that carry a timeout, a frame with CAS 0x1122 and a malformed body. -/
theorem make_response_keeps_incoming_error_witness :
    remove_request.make_response
        ⟨.other "couchbase.common" 14, { bucket := "b", key := "k" }⟩
        { id := { bucket := "b", key := "k" }, partition := 5 }
        { cas := 0x1122, token := { partition_uuid := 99, sequence_number := 7 } }
      = { ctx := ⟨.other "couchbase.common" 14, { bucket := "b", key := "k" }⟩,
          cas := 0, token := {} } ∧
    search_index_analyze_document_request.make_response text_json
        sample_extract_common_error_code ⟨"idx", "[]"⟩
        { ec := .other "couchbase.common" 14 } ⟨200, "\x7b\"status\":"⟩
      = .ok { ctx := { ec := .other "couchbase.common" 14 } } ∧
    eventing_undeploy_function_request.make_response text_json
        (fun _ => .ok (.other "couchbase.management" 610, "ERR_APP_NOT_FOUND_TS"))
        ⟨"on_update"⟩ { ec := .other "couchbase.common" 14 } ⟨200, "\x7b\"status\":"⟩
      = .ok { ctx := { ec := .other "couchbase.common" 14 }, error := none } :=
  make_response_keeps_incoming_error text_json sample_extract_common_error_code
    (fun _ => .ok (.other "couchbase.management" 610, "ERR_APP_NOT_FOUND_TS"))
    ⟨.other "couchbase.common" 14, { bucket := "b", key := "k" }⟩
    { id := { bucket := "b", key := "k" }, partition := 5 }
    { cas := 0x1122, token := { partition_uuid := 99, sequence_number := 7 } }
    { ec := .other "couchbase.common" 14 } ⟨"idx", "[]"⟩ ⟨"on_update"⟩
    ⟨200, "\x7b\"status\":"⟩ rfl rfl

/-! ## eventing_undeploy_function: decoding a body -/

/-- C19: with no incoming error and a non-empty body, `make_response` of undeploy keeps a
malformed body apart from a reported problem.  A body the reader rejects gives
`parsing_failure` and no problem.  For a body that parses, with `(ec, problem)` the pair
returned by the eventing table: a non-zero `ec` gives `ctx.ec = ec` and that problem, a zero
`ec` gives the successful response; so the problem is present exactly when `ec` is non-zero. -/
theorem eventing_make_response_body {problem : Type} (json : json_utils)
    (extract_eventing_error_code : json_value → Except cxx_exception (error_code × problem))
    (req : eventing_undeploy_function_request) (ctx : http_error_context)
    (encoded : http_response)
    (hctx : ctx.ec.failed = false) (hbody : encoded.body ≠ "") :
    (json.parse encoded.body = .error .parse_error →
      req.make_response json extract_eventing_error_code ctx encoded
        = .ok { ctx := { ctx with ec := .common .parsing_failure }, error := none }) ∧
    (∀ payload ec p, json.parse encoded.body = .ok payload →
      extract_eventing_error_code payload = .ok (ec, p) →
      ∃ response,
        req.make_response json extract_eventing_error_code ctx encoded = .ok response ∧
        (response.error.isSome = true ↔ ec.failed = true) ∧
        (ec.failed = true → response.ctx = { ctx with ec := ec } ∧ response.error = some p) ∧
        (ec.failed = false → response.ctx = ctx ∧ response.error = none)) := by
  have hempty : str_empty encoded.body = false := (str_empty_eq_false_iff _).2 hbody
  constructor
  · intro hparse
    simp [eventing_undeploy_function_request.make_response, hctx, hempty, hparse]
  · intro payload ec p hparse hextract
    cases hec : ec.failed
    · refine ⟨{ ctx := ctx, error := none }, ?_, by simp, by simp, by simp⟩
      simp [eventing_undeploy_function_request.make_response, hctx, hempty, hparse, hextract,
        hec, bind, Except.bind]
    · refine ⟨{ ctx := { ctx with ec := ec }, error := some p }, ?_, by simp, by simp, by simp⟩
      simp [eventing_undeploy_function_request.make_response, hctx, hempty, hparse, hextract,
        hec, bind, Except.bind]

/-- C19, at a malformed body and at a body for which the table reports a problem. -/
theorem eventing_make_response_body_witness :
    eventing_undeploy_function_request.make_response text_json
        (fun _ => .ok (.other "couchbase.management" 610, "ERR_APP_NOT_FOUND_TS"))
        ⟨"on_update"⟩ {} ⟨200, "\x7b\"name\":"⟩
      = .ok { ctx := { ec := .common .parsing_failure }, error := none } ∧
    ∃ response,
      eventing_undeploy_function_request.make_response text_json
          (fun _ => .ok (.other "couchbase.management" 610, "ERR_APP_NOT_FOUND_TS"))
          ⟨"on_update"⟩ {} ⟨404, "\x7b\"name\":\"ERR_APP_NOT_FOUND_TS\"\x7d"⟩ = .ok response ∧
      response.ctx = { ec := .other "couchbase.management" 610 } ∧
      response.error = some "ERR_APP_NOT_FOUND_TS" :=
  ⟨(eventing_make_response_body text_json
      (fun _ => .ok (.other "couchbase.management" 610, "ERR_APP_NOT_FOUND_TS"))
      ⟨"on_update"⟩ {} ⟨200, "\x7b\"name\":"⟩ rfl (by decide)).1 rfl,
   by
    obtain ⟨response, hrun, _, hfail, _⟩ :=
      (eventing_make_response_body text_json
        (fun _ => .ok (.other "couchbase.management" 610, "ERR_APP_NOT_FOUND_TS"))
        ⟨"on_update"⟩ {} ⟨404, "\x7b\"name\":\"ERR_APP_NOT_FOUND_TS\"\x7d"⟩ rfl (by decide)).2
        (.object [("name", .string "ERR_APP_NOT_FOUND_TS")])
        (.other "couchbase.management" 610) "ERR_APP_NOT_FOUND_TS" rfl rfl
    exact ⟨response, hrun, (hfail rfl).1, (hfail rfl).2⟩⟩

/-! ## remove: the mutation token and the encoded frame -/

/-- C20: for a remove response without incoming error, the token's partition id is the
request's partition and its bucket name is the bucket of the document id in the error context,
whatever partition id and bucket name the token of the frame carried; the partition uuid and
the sequence number are those of the frame's token. -/
theorem remove_make_response_token (ctx : key_value_error_context) (req : remove_request)
    (encoded : remove_response_frame) (h : ctx.ec.failed = false) :
    (remove_request.make_response ctx req encoded).token.partition_id = req.partition ∧
    (remove_request.make_response ctx req encoded).token.bucket_name = ctx.id.bucket ∧
    (remove_request.make_response ctx req encoded).token
      = { encoded.token with partition_id := req.partition, bucket_name := ctx.id.bucket } ∧
    (∀ (partition_id : Nat) (bucket_name : String),
      (remove_request.make_response ctx req
          { encoded with token := { encoded.token with
              partition_id := partition_id, bucket_name := bucket_name } }).token
        = (remove_request.make_response ctx req encoded).token) := by
  simp [remove_request.make_response, h]

/-- C20, at a frame whose token names partition 1 of bucket `other`, for a request on
partition 5 and a context with bucket `travel`. -/
theorem remove_make_response_token_witness :
    (remove_request.make_response { id := { bucket := "travel", key := "k" } }
        { id := { bucket := "travel", key := "k" }, partition := 5 }
        { cas := 3, token := { partition_uuid := 99, sequence_number := 7, partition_id := 1,
                               bucket_name := "other" } }).token
      = { partition_uuid := 99, sequence_number := 7, partition_id := 5,
          bucket_name := "travel" } :=
  (remove_make_response_token { id := { bucket := "travel", key := "k" } }
    { id := { bucket := "travel", key := "k" }, partition := 5 }
    { cas := 3, token := { partition_uuid := 99, sequence_number := 7, partition_id := 1,
                           bucket_name := "other" } } rfl).2.2.1

/-- C13: `encode_to` of a remove request always returns success; the calls it makes on the
frame are the setters of opaque, partition, CAS and document id, once each with the request's
values, followed only by the durability extra when the level is not `none`.  A request built
from a document id alone has CAS 0 and level `none`, and the frame gets CAS 0 and no extra. -/
theorem remove_encode_to_frame (req : remove_request) (encoded : List frame_call)
    (id : document_id) :
    (req.encode_to encoded).1 = .success ∧
    (req.encode_to encoded).2 = encoded ++
      [.opaque_id req.opaque_id, .partition req.partition, .cas req.cas, .body_id req.id] ++
      (if req.durability_level = .none then []
       else [.body_durability req.durability_level req.durability_timeout]) ∧
    ({ id := id } : remove_request).cas = 0 ∧
    ({ id := id } : remove_request).durability_level = .none ∧
    (({ id := id } : remove_request).encode_to []).2
      = [.opaque_id 0, .partition 0, .cas 0, .body_id id] := by
  refine ⟨rfl, ?_, rfl, rfl, ?_⟩
  · by_cases h : req.durability_level = .none <;> simp [remove_request.encode_to, h]
  · simp [remove_request.encode_to]

/-! ## mcbp_noop -/

/-- C12: `encode_to` of the no-op request returns success and makes exactly two calls on the
frame, the setters of opaque and partition (no CAS, no body); `make_response` returns the
incoming context, whatever it holds, and the same response for any two frames. -/
theorem mcbp_noop_no_payload {frame : Type} (req : mcbp_noop_request)
    (encoded : List frame_call) (ctx : key_value_error_context) (f g : frame) :
    req.encode_to encoded
      = (.success, encoded ++ [.opaque_id req.opaque_id, .partition req.partition]) ∧
    (req.make_response ctx f).ctx = ctx ∧
    req.make_response ctx f = req.make_response ctx g := by
  refine ⟨?_, rfl, rfl⟩
  simp [mcbp_noop_request.encode_to]

/-! ## Formatting of error map attributes -/

/-- C14: the formatter of `key_value_error_map_attribute` writes, for each of the eighteen
enumerators, its own name, the names are pairwise distinct, and `unknown` is written exactly
for a value that is none of the enumerators. -/
theorem error_map_attribute_format_injective :
    (List.map key_value_error_map_attribute.format
        [.success, .item_only, .invalid_input, .fetch_config, .conn_state_invalidated, .auth,
         .special_handling, .support, .temp, .internal, .retry_now, .retry_later, .subdoc,
         .dcp, .auto_retry, .item_locked, .item_deleted, .rate_limit]
      = ["success", "item-only", "invalid-input", "fetch-config", "conn-state-invalidated",
         "auth", "special-handling", "support", "temp", "internal", "retry-now",
         "retry-later", "subdoc", "dcp", "auto-retry", "item-locked", "item-deleted",
         "rate-limit"]) ∧
    (∀ a b : key_value_error_map_attribute, a.declared = true → b.declared = true →
      a.format = b.format → a = b) ∧
    (∀ a : key_value_error_map_attribute, a.format = "unknown" ↔ a.declared = false) := by
  refine ⟨by decide, ?_, ?_⟩
  · intro a b ha hb hab
    cases a <;> cases b <;>
      first
      | rfl
      | exact absurd ha Bool.false_ne_true
      | exact absurd hb Bool.false_ne_true
      | exact absurd hab (by decide)
  · intro a
    cases a <;> first | decide | exact ⟨fun _ => rfl, fun _ => rfl⟩

/-- C14, at two enumerators with different names and at the value 99. -/
theorem error_map_attribute_format_injective_witness :
    key_value_error_map_attribute.retry_now.format = "retry-now" ∧
    key_value_error_map_attribute.retry_later.format ≠
      key_value_error_map_attribute.retry_now.format ∧
    (key_value_error_map_attribute.undeclared 99).format = "unknown" :=
  ⟨by decide,
   fun h => absurd (error_map_attribute_format_injective.2.1 .retry_later .retry_now rfl rfl h)
     (by decide),
   (error_map_attribute_format_injective.2.2 (.undeclared 99)).2 rfl⟩

/-! ## initiate_unlock_operation -/

/-- C21: `initiate_unlock_operation` makes exactly one call of `core->execute`.  The request
has the document id (bucket_name, scope_name, collection_name, document_key), the caller's CAS,
the timeout and the retry strategy of the built options, and partition and opaque 0.  The
callback hands the error context of the response to the caller's handler, so its result is the
same for two responses with the same context. -/
theorem initiate_unlock_operation_submits {timeout_type strategy_type rest_type effect : Type}
    (bucket_name scope_name collection_name document_key : String) (cas : Nat)
    (options : unlock_options_built timeout_type strategy_type)
    (handler : key_value_error_context → effect) :
    ∃ (request : unlock_request timeout_type strategy_type)
      (callback : unlock_response rest_type → effect),
      initiate_unlock_operation bucket_name scope_name collection_name document_key cas
          options handler = [(request, callback)] ∧
      request.id = { bucket := bucket_name, scope := scope_name,
                     collection := collection_name, key := document_key } ∧
      request.cas = cas ∧
      request.timeout = options.timeout ∧
      request.retries.strategy = options.retry_strategy ∧
      request.partition = 0 ∧ request.opaque_id = 0 ∧
      (∀ resp, callback resp = handler resp.ctx) ∧
      (∀ resp resp', resp.ctx = resp'.ctx → callback resp = callback resp') :=
  ⟨_, _, rfl, rfl, rfl, rfl, rfl, rfl, rfl, fun _ => rfl, fun _ _ h => congrArg handler h⟩

/-- C21, at a call for the key `k` of `travel.inventory.airline` with CAS 0x1122, a timeout of
2500 ms and the strategy `best_effort`, with a handler that returns the error code. -/
theorem initiate_unlock_operation_submits_witness :
    ∃ (request : unlock_request (Option Nat) String)
      (callback : unlock_response Nat → error_code),
      initiate_unlock_operation "travel" "inventory" "airline" "k" 0x1122
          ⟨some 2500, "best_effort"⟩ (fun ctx => ctx.ec) = [(request, callback)] ∧
      request.id = { bucket := "travel", scope := "inventory", collection := "airline",
                     key := "k" } ∧
      request.cas = 0x1122 ∧
      request.timeout = some 2500 ∧
      request.retries.strategy = "best_effort" ∧
      request.partition = 0 ∧ request.opaque_id = 0 ∧
      (∀ resp, callback resp = resp.ctx.ec) ∧
      (∀ resp resp', resp.ctx = resp'.ctx → callback resp = callback resp') :=
  initiate_unlock_operation_submits "travel" "inventory" "airline" "k" 0x1122
    ⟨some 2500, "best_effort"⟩ (fun ctx => ctx.ec)

/-! ## transactions_config -/

/-- Truncating division is unchanged when both arguments are scaled by a positive factor. -/
theorem tdiv_mul_mul_cancel (x y g : Int) (hy : 0 ≤ y) (hg : 0 < g) :
    (x * g).tdiv (y * g) = x.tdiv y := by
  rcases le_total 0 x with hx | hx
  · rw [Int.tdiv_eq_ediv (mul_nonneg hx hg.le) (mul_nonneg hy hg.le), Int.tdiv_eq_ediv hx hy]
    exact Int.mul_ediv_mul_of_pos_left x y hg
  · obtain ⟨z, rfl⟩ : ∃ z, x = -z := ⟨-x, by simp⟩
    have hz : 0 ≤ z := by omega
    rw [neg_mul, Int.neg_tdiv, Int.neg_tdiv,
      Int.tdiv_eq_ediv (mul_nonneg hz hg.le) (mul_nonneg hy hg.le), Int.tdiv_eq_ediv hz hy,
      Int.mul_ediv_mul_of_pos_left z y hg]

/-- A multiple of `c` by a smaller positive factor fits in 64 bits when the larger one does. -/
theorem int64_fits_mul_of_le (c : Int) (k a : Nat) (hk : 1 ≤ k) (hka : k ≤ a)
    (h : int64_fits (c * a) = true) : int64_fits (c * k) = true := by
  simp only [int64_fits, Bool.and_eq_true, decide_eq_true_eq] at h ⊢
  have hk' : (1 : Int) ≤ k := by exact_mod_cast hk
  have hka' : (k : Int) ≤ a := by exact_mod_cast hka
  rcases le_total 0 c with hc | hc
  · constructor
    · have : 0 ≤ c * k := mul_nonneg hc (by omega)
      omega
    · have : c * k ≤ c * a := mul_le_mul_of_nonneg_left hka' hc
      omega
  · constructor
    · have : c * a ≤ c * k := mul_le_mul_of_nonpos_left hka' hc
      omega
    · have : c * k ≤ 0 := mul_nonpos_of_nonpos_of_nonneg hc (by omega)
      omega

/-- An integer that fits in 64 bits is its own value in the signed 64-bit type. -/
theorem wrap_int64_of_fits (x : Int) (h : int64_fits x = true) : wrap_int64 x = x := by
  simp only [int64_fits, Bool.and_eq_true, decide_eq_true_eq] at h
  unfold wrap_int64
  norm_num at h ⊢
  omega

/-- When the count times the numerator of the conversion factor fits in 64 bits,
`duration_cast` to milliseconds is the exact value in milliseconds truncated toward zero. -/
theorem duration_cast_milliseconds_eq (d : duration) (hnum : 0 < d.num) (hden : 0 < d.den)
    (hfit : int64_fits
      (d.count * ((d.num * 1000 / Nat.gcd (d.num * 1000) d.den : Nat) : Int)) = true) :
    duration_cast_milliseconds d
      = (d.count * ((d.num * 1000 : Nat) : Int)).tdiv (d.den : Int) := by
  obtain ⟨count, num, den⟩ := d
  simp only at hnum hden hfit ⊢
  have ha : 0 < num * 1000 := by omega
  have hg : 0 < Nat.gcd (num * 1000) den := Nat.gcd_pos_of_pos_right _ hden
  have hnum_eq : num * 1000 / Nat.gcd (num * 1000) den * Nat.gcd (num * 1000) den = num * 1000 :=
    Nat.div_mul_cancel (Nat.gcd_dvd_left _ _)
  have hden_eq : den / Nat.gcd (num * 1000) den * Nat.gcd (num * 1000) den = den :=
    Nat.div_mul_cancel (Nat.gcd_dvd_right _ _)
  have hcf_num : 1 ≤ num * 1000 / Nat.gcd (num * 1000) den :=
    Nat.div_pos (Nat.le_of_dvd ha (Nat.gcd_dvd_left _ _)) hg
  have hfit_count : int64_fits count = true := by
    have := int64_fits_mul_of_le count 1 _ (le_refl 1) hcf_num hfit
    simpa using this
  have hwrap_count : wrap_int64 count = count := wrap_int64_of_fits _ hfit_count
  have hwrap_num :
      wrap_int64 (count * ((num * 1000 / Nat.gcd (num * 1000) den : Nat) : Int))
        = count * ((num * 1000 / Nat.gcd (num * 1000) den : Nat) : Int) :=
    wrap_int64_of_fits _ hfit
  unfold duration_cast_milliseconds
  simp only [hwrap_count, hwrap_num]
  generalize num * 1000 / Nat.gcd (num * 1000) den = cf_num at *
  generalize den / Nat.gcd (num * 1000) den = cf_den at *
  generalize Nat.gcd (num * 1000) den = g at *
  have htarget : (count * ((num * 1000 : Nat) : Int)).tdiv (den : Int)
      = (count * (cf_num : Int)).tdiv (cf_den : Int) := by
    rw [← hnum_eq, ← hden_eq, Nat.cast_mul, Nat.cast_mul, ← mul_assoc]
    exact tdiv_mul_mul_cancel _ _ _ (Int.ofNat_nonneg _) (by exact_mod_cast hg)
  rw [htarget]
  by_cases h1 : cf_num = 1 <;> by_cases h2 : cf_den = 1
  · subst h1; subst h2
    simp
  · subst h1
    simp [h2]
  · subst h2
    simp [h1]
  · simp [h1, h2]

/-- C22 as stated fails: for the duration of 9223372036854776 seconds the multiplication by
1000 overflows the signed 64-bit type; `kv_timeout()` then returns the negative value
-9223372036854775616 and not the 9223372036854776000 ms that the duration is. -/
theorem transactions_config_kv_timeout_overflow :
    ((transactions_config.kv_timeout_assign
        ({ level_ := .majority, expiration_time_ := 15000000000, kv_timeout_ := none,
           metadata_collection_ := none, query_config_ := "query",
           cleanup_config_ := "cleanup" } : transactions_config String String)
        ⟨9223372036854776, 1, 1⟩).kv_timeout = some (-9223372036854775616)) ∧
    ((9223372036854776 * ((1 * 1000 : Nat) : Int)).tdiv ((1 : Nat) : Int)
      = 9223372036854776000) ∧
    ((transactions_config.kv_timeout_assign
        ({ level_ := .majority, expiration_time_ := 15000000000, kv_timeout_ := none,
           metadata_collection_ := none, query_config_ := "query",
           cleanup_config_ := "cleanup" } : transactions_config String String)
        ⟨9223372036854776, 1, 1⟩).kv_timeout ≠ some 9223372036854776000) := by
  decide

/-- C22, amended: after `kv_timeout(d)`, for a duration `d` of an integral `count` of ticks of
`num / den` seconds whose conversion does not overflow (the count times the numerator of the
conversion factor in lowest terms fits in 64 bits), `kv_timeout()` returns a present value,
the exact value of `d` in milliseconds truncated toward zero (0 when `d` is shorter than a
millisecond), and the durability level, the expiration time, the metadata collection, the
query configuration and the cleanup configuration are those from before the call. -/
theorem transactions_config_kv_timeout {Q C : Type} (cfg : transactions_config Q C)
    (d : duration) (hnum : 0 < d.num) (hden : 0 < d.den)
    (hfit : int64_fits
      (d.count * ((d.num * 1000 / Nat.gcd (d.num * 1000) d.den : Nat) : Int)) = true) :
    (cfg.kv_timeout_assign d).kv_timeout
      = some ((d.count * ((d.num * 1000 : Nat) : Int)).tdiv (d.den : Int)) ∧
    ((d.count * ((d.num * 1000 : Nat) : Int)).natAbs < d.den →
      (cfg.kv_timeout_assign d).kv_timeout = some 0) ∧
    (cfg.kv_timeout_assign d).durability_level = cfg.durability_level ∧
    (cfg.kv_timeout_assign d).expiration_time = cfg.expiration_time ∧
    (cfg.kv_timeout_assign d).metadata_collection = cfg.metadata_collection ∧
    (cfg.kv_timeout_assign d).query_config = cfg.query_config ∧
    (cfg.kv_timeout_assign d).cleanup_config = cfg.cleanup_config := by
  have hcast := duration_cast_milliseconds_eq d hnum hden hfit
  have hget : (cfg.kv_timeout_assign d).kv_timeout
      = some ((d.count * ((d.num * 1000 : Nat) : Int)).tdiv (d.den : Int)) := by
    simp [transactions_config.kv_timeout_assign, transactions_config.kv_timeout, hcast]
  refine ⟨hget, ?_, rfl, rfl, rfl, rfl, rfl⟩
  intro hlt
  have hzero : ((d.count * ((d.num * 1000 : Nat) : Int)).tdiv (d.den : Int)).natAbs = 0 := by
    rw [Int.natAbs_tdiv, Int.natAbs_ofNat]
    exact Nat.div_eq_of_lt hlt
  rw [hget, Int.natAbs_eq_zero.1 hzero]

/-- C22 amended, at a duration of 999 microseconds, which gives 0 ms, on a configuration whose
other members are set. -/
theorem transactions_config_kv_timeout_witness :
    (transactions_config.kv_timeout_assign
        ({ level_ := .majority, expiration_time_ := 15000000000, kv_timeout_ := some 2500,
           metadata_collection_ := some ⟨"travel", "_default", "_default"⟩,
           query_config_ := "query", cleanup_config_ := "cleanup" } :
          transactions_config String String)
        ⟨999, 1, 1000000⟩).kv_timeout = some 0 ∧
    (transactions_config.kv_timeout_assign
        ({ level_ := .majority, expiration_time_ := 15000000000, kv_timeout_ := some 2500,
           metadata_collection_ := some ⟨"travel", "_default", "_default"⟩,
           query_config_ := "query", cleanup_config_ := "cleanup" } :
          transactions_config String String)
        ⟨999, 1, 1000000⟩).metadata_collection
      = some ⟨"travel", "_default", "_default"⟩ :=
  ⟨(transactions_config_kv_timeout
      ({ level_ := .majority, expiration_time_ := 15000000000, kv_timeout_ := some 2500,
         metadata_collection_ := some ⟨"travel", "_default", "_default"⟩,
         query_config_ := "query", cleanup_config_ := "cleanup" } :
        transactions_config String String)
      ⟨999, 1, 1000000⟩ (by decide) (by decide) (by decide)).2.1 (by decide),
   (transactions_config_kv_timeout
      ({ level_ := .majority, expiration_time_ := 15000000000, kv_timeout_ := some 2500,
         metadata_collection_ := some ⟨"travel", "_default", "_default"⟩,
         query_config_ := "query", cleanup_config_ := "cleanup" } :
        transactions_config String String)
      ⟨999, 1, 1000000⟩ (by decide) (by decide) (by decide)).2.2.2.2.1⟩

/-! ## pillowfight: the error report of `do_work` -/

/-- C23 fails on the code: the report prints the message of `ec`, the code bound when the
cluster was connected, on every line, not the message of the recorded code `e`.  With three
operations that failed with code 101 of the key-value category and a connect code without
error, the line reads `Success: 3`; and the lines never depend on the recorded codes. -/
theorem do_work_error_stats_prints_connect_code :
    do_work_error_stats sample_message .success [(.other "couchbase.key_value" 101, 3)]
      = ["error stats:\n", "    Success: 3\n"] ∧
    fmt_format "    {}: {}\n" [sample_message (.other "couchbase.key_value" 101), toString 3]
      = "    couchbase.key_value:101: 3\n" ∧
    (∀ (message : error_code → String) (ec : error_code) (errors errors' : List (error_code × Nat)),
      errors.map Prod.snd = errors'.map Prod.snd →
      do_work_error_stats message ec errors = do_work_error_stats message ec errors') := by
  refine ⟨by decide, by decide, ?_⟩
  intro message ec errors errors' h
  have key : ∀ es : List (error_code × Nat),
      do_work_error_stats message ec es =
        (if (es.map Prod.snd).isEmpty then []
         else "error stats:\n" ::
           (es.map Prod.snd).map fun count =>
             fmt_format "    {}: {}\n" [message ec, toString count]) := by
    intro es
    cases es with
    | nil => rfl
    | cons e rest => simp [do_work_error_stats, Function.comp_def]
  rw [key, key, h]

end Couchbase
